import Mathlib

/-!
Shallow embedding of the tenant-scoped Looker API client
(`createLookerClient` / `LookerClientImpl` in the repository) together
with the credential-validation helpers of the environment module.

JavaScript-valued data is modelled as follows:
* `string | undefined` and `string | null` become `Option String`
  (`none` = absent / `null` / `undefined`);
* `number` becomes `Int`, with `NaN` represented by `none` where a
  computation (`parseInt`) can produce it;
* millisecond clock readings (`Date.now()`) become an explicit `Int`
  argument `now`;
* the single `fetch` a method performs is replaced by an oracle argument
  describing the response the network returns, and the request the
  method would send is returned as data;
* `JSON.parse` is an oracle: an `HttpResponse` carries both the body
  text and the parse result of that text (`none` = parse failure).
-/

/- JavaScript truthiness of a `string | undefined | null` value:
falsy iff absent or the empty string. -/
def truthyOpt (o : Option String) : Bool :=
  match o with
  | none => false
  | some s => s ≠ ""

/- JavaScript `x || d` for a possibly-absent number `x`
(`0` is falsy, any other number is truthy). -/
def jsNumOr (o : Option Int) (d : Int) : Int :=
  match o with
  | none => d
  | some n => if n = 0 then d else n

/- JavaScript template-literal / `String()` coercion of a possibly
`undefined` string: `undefined` renders as `"undefined"`. -/
def jsTemplate (o : Option String) : String :=
  match o with
  | none => "undefined"
  | some s => s

/- The whitespace characters `parseInt` skips at the start of its input
(ASCII fragment of the WhiteSpace/LineTerminator productions). -/
def isJsSpace (c : Char) : Bool :=
  c = ' ' ∨ c = '\t' ∨ c = '\n' ∨ c = '\r'

/- JavaScript `parseInt(s, 10)`: skip leading whitespace, read an
optional sign, then the longest run of decimal digits; `NaN` (here
`none`) when that run is empty. -/
def jsParseInt (s : String) : Option Int :=
  let cs := s.data.dropWhile isJsSpace
  let signAndRest : Int × List Char :=
    match cs with
    | '-' :: t => (-1, t)
    | '+' :: t => (1, t)
    | _ => (1, cs)
  let digits := signAndRest.2.takeWhile Char.isDigit
  if digits.isEmpty then none
  else some (signAndRest.1 * (digits.foldl (fun a c => a * 10 + (c.toNat - 48)) 0 : Nat))

def charsStartWith (pat s : List Char) : Bool :=
  match pat, s with
  | [], _ => true
  | _ :: _, [] => false
  | p :: ps, c :: cs => p = c && charsStartWith ps cs

def charsIncludes (pat : List Char) : List Char → Bool
  | [] => charsStartWith pat []
  | c :: cs => charsStartWith pat (c :: cs) || charsIncludes pat cs

/- JavaScript `String.prototype.includes`: substring containment. -/
def strIncludes (s pat : String) : Bool :=
  charsIncludes pat.data s.data

def hexDigitChar (n : Nat) : Char :=
  if n < 10 then Char.ofNat (48 + n) else Char.ofNat (55 + n)

def byteToPercent (b : UInt8) : String :=
  "%" ++ String.singleton (hexDigitChar (b.toNat / 16))
      ++ String.singleton (hexDigitChar (b.toNat % 16))

def percentEncodeChar (c : Char) : String :=
  String.join (((String.singleton c).toUTF8.toList).map byteToPercent)

/- The characters `encodeURIComponent` leaves unescaped. -/
def isUriUnreserved (c : Char) : Bool :=
  c.isAlpha || c.isDigit || c = '-' || c = '_' || c = '.' ||
  c = '!' || c = '~' || c = '*' || c = '\'' || c = '(' || c = ')'

/- JavaScript `encodeURIComponent`. -/
def encodeURIComponent (s : String) : String :=
  s.data.foldl
    (fun acc c =>
      acc ++ (if isUriUnreserved c then String.singleton c else percentEncodeChar c))
    ""

/- The characters the `URLSearchParams` serializer
(`application/x-www-form-urlencoded`) leaves unescaped. -/
def isFormUnreserved (c : Char) : Bool :=
  c.isAlphanum || c = '*' || c = '-' || c = '.' || c = '_'

/- One character under the `application/x-www-form-urlencoded`
serializer: space becomes `+`, unreserved characters stay, the rest is
percent-encoded per UTF-8 byte. -/
def formEncodeChar (c : Char) : String :=
  if c = ' ' then "+"
  else if isFormUnreserved c then String.singleton c
  else percentEncodeChar c

def formEncode (s : String) : String :=
  s.data.foldl (fun acc c => acc ++ formEncodeChar c) ""

/- `URLSearchParams.toString()` on an in-insertion-order list of pairs. -/
def qpToString (ps : List (String × String)) : String :=
  String.intercalate "&" (ps.map (fun p => formEncode p.1 ++ "=" ++ formEncode p.2))

-- =============================================================================
-- Tenant credentials (src: env module, `TenantCredentials`)
-- =============================================================================

structure TenantCredentials where
  baseUrl : Option String := none
  clientId : Option String := none
  clientSecret : Option String := none
  accessToken : Option String := none
deriving DecidableEq, Repr

/- `validateCredentials` from the environment module: throws on a
missing base URL, then — when no access token is present — throws
unless both client id and client secret are present.  The embedding
returns the thrown message in `Except.error`. -/
def validateCredentials (c : TenantCredentials) : Except String Unit :=
  if !truthyOpt c.baseUrl then
    .error "Missing Looker base URL. Provide X-Looker-Base-URL header (e.g., https://company.looker.com)."
  else if !truthyOpt c.accessToken then
    if !truthyOpt c.clientId || !truthyOpt c.clientSecret then
      .error "Missing credentials. Provide either X-Looker-Access-Token OR both X-Looker-Client-ID and X-Looker-Client-Secret headers."
    else .ok ()
  else .ok ()

-- =============================================================================
-- JSON values (the image of `JSON.parse`; numbers restricted to integers)
-- =============================================================================

/- JSON values at the granularity the client distinguishes them: the
only inspection the client performs on a parsed body is looking up the
string-valued `message` / `error` fields of a top-level object.
Arrays and nested objects are atoms for that lookup and are folded
into `atom`, which carries the source text of the value. -/
inductive JsVal where
  | str (s : String)
  | num (n : Int)
  | boolean (b : Bool)
  | nullVal
  | atom (sourceText : String)
  | obj (fields : List (String × String))
deriving DecidableEq, Repr

/- Object fields whose values matter to the client (`message`, `error`)
are strings in every Looker error body; the model therefore carries
object fields as string-valued pairs.  `JSON.parse` deduplicates keys,
so lookup takes the first (unique) match. -/
def jsField (j : JsVal) (k : String) : Option String :=
  match j with
  | .obj fs => (fs.find? (fun p => p.1 = k)).map (·.2)
  | _ => none

/- JavaScript truthiness of a field value that is present as a string. -/
def truthyStr (o : Option String) : Option String :=
  match o with
  | some s => if s = "" then none else some s
  | none => none

-- =============================================================================
-- Client state and token issuance (src: `LookerClientImpl`)
-- =============================================================================

/- The two mutable fields of `LookerClientImpl`:
`accessToken : string | null` and `tokenExpiry : number` (epoch ms). -/
structure ClientState where
  accessToken : Option String
  tokenExpiry : Int
deriving DecidableEq, Repr

/- What the network returns for the `fetch` of the login endpoint:
either a 2xx body `{access_token, expires_in?}` or a failure with the
response text. -/
inductive LoginOutcome where
  | success (access_token : String) (expires_in : Option Int)
  | failure (errorText : String)
deriving DecidableEq, Repr

/- An outbound HTTP request as the client would hand it to `fetch`. -/
structure OutboundRequest where
  url : String
  method : String
  headers : List (String × String)
  body : Option String
deriving DecidableEq, Repr

/- The login `fetch` performed by `getAccessToken`: POST of the
form-encoded client credentials to `{baseUrl}/api/4.0/login`. -/
def loginRequest (creds : TenantCredentials) : OutboundRequest :=
  { url := jsTemplate creds.baseUrl ++ "/api/4.0/login"
  , method := "POST"
  , headers := [("Content-Type", "application/x-www-form-urlencoded")]
  , body := some ("client_id=" ++ encodeURIComponent (jsTemplate creds.clientId)
        ++ "&client_secret=" ++ encodeURIComponent (jsTemplate creds.clientSecret)) }

/- Constructor of `LookerClientImpl`: fields start as `null` / `0`,
then a truthy pre-authenticated token is installed with an assumed
one-hour validity window. -/
def initState (creds : TenantCredentials) (now : Int) : ClientState :=
  if truthyOpt creds.accessToken then
    { accessToken := creds.accessToken, tokenExpiry := now + 3600000 }
  else
    { accessToken := none, tokenExpiry := 0 }

structure TokenResult where
  out : Except String String
  st : ClientState
  loginCalls : Nat
  loginReq : Option OutboundRequest
deriving Repr

/- `getAccessToken`: cached-token fast path (more than the 60 s margin
left before recorded expiry), then the pre-authenticated-token path
(reinstalled with a one-hour window), then the OAuth login call.
`now` is `Date.now()`; `login` is the oracle for the login fetch.
`loginCalls` counts login HTTP requests actually issued (one also when
the login response is a failure, since the fetch happened). -/
def getAccessToken (creds : TenantCredentials) (st : ClientState) (now : Int)
    (login : LoginOutcome) : TokenResult :=
  if truthyOpt st.accessToken ∧ now < st.tokenExpiry - 60000 then
    { out := .ok (jsTemplate st.accessToken), st := st, loginCalls := 0, loginReq := none }
  else if truthyOpt creds.accessToken then
    { out := .ok (jsTemplate creds.accessToken)
    , st := { accessToken := creds.accessToken, tokenExpiry := now + 3600000 }
    , loginCalls := 0, loginReq := none }
  else if !truthyOpt creds.clientId || !truthyOpt creds.clientSecret then
    { out := .error "No credentials provided. Include X-Looker-Client-ID and X-Looker-Client-Secret headers."
    , st := st, loginCalls := 0, loginReq := none }
  else
    match login with
    | .failure txt =>
        { out := .error ("Looker login failed: " ++ txt)
        , st := st, loginCalls := 1, loginReq := some (loginRequest creds) }
    | .success tok exp =>
        { out := .ok tok
        , st := { accessToken := some tok, tokenExpiry := now + jsNumOr exp 3600 * 1000 }
        , loginCalls := 1, loginReq := some (loginRequest creds) }

-- =============================================================================
-- Response classification (src: `LookerClientImpl.request`)
-- =============================================================================

/- A `fetch` response as `request` observes it: the status code, the
two headers it reads, the body text, and the `JSON.parse` of that text
(`none` when the text is not valid JSON). -/
structure HttpResponse where
  status : Nat
  retryAfter : Option String
  contentType : Option String
  bodyText : String
  bodyJson : Option JsVal
deriving DecidableEq, Repr

/- Message extraction for the generic non-2xx branch:
`errorJson.message || errorJson.error || "API error: <status>"` when the
body parses as JSON — except that a body parsing to JSON `null` throws
a TypeError on `errorJson.message` inside the try, so the catch runs
for it just as for an unparseable body: in both cases the message is
`errorBody || message`, i.e. the raw body text when non-empty, else the
generic message.  (Property access on the other JSON primitives does
not throw; it yields `undefined` and falls through to the generic
message.) -/
def extractApiMessage (r : HttpResponse) : String :=
  let generic := "API error: " ++ toString r.status
  match r.bodyJson with
  | some .nullVal => if r.bodyText = "" then generic else r.bodyText
  | some j =>
      match truthyStr (jsField j "message") with
      | some v => v
      | none =>
          match truthyStr (jsField j "error") with
          | some w => w
          | none => generic
  | none => if r.bodyText = "" then generic else r.bodyText

/- The value `request` produces for a response, or the error it throws.
`rateLimited` carries the retry-after seconds (`none` = `NaN`);
`jsonResult` carries the `response.json()` parse (`none` = rejected). -/
inductive ReqOutcome where
  | rateLimited (retryAfterSeconds : Option Int)
  | authFailed (message : String)
  | notFound (message : String)
  | apiError (message : String) (status : Nat)
  | noContent
  | rawText (body : String)
  | jsonResult (json : Option JsVal)
deriving DecidableEq, Repr

/- The body of `request` after the `fetch`, lines 227-271 of the client:
429, then 401/403, then 404, then any other non-2xx, then 204, then
the content-type check, then JSON decoding.  `response.ok` is
`200 ≤ status ≤ 299`. -/
def classifyResponse (r : HttpResponse) : ReqOutcome :=
  if r.status = 429 then
    .rateLimited (if truthyOpt r.retryAfter then jsParseInt (jsTemplate r.retryAfter) else some 60)
  else if r.status = 401 ∨ r.status = 403 then
    .authFailed "Authentication failed. Check your API credentials."
  else if r.status = 404 then
    .notFound ("Not found: " ++ r.bodyText)
  else if ¬(200 ≤ r.status ∧ r.status ≤ 299) then
    .apiError (extractApiMessage r) r.status
  else if r.status = 204 then
    .noContent
  else if !strIncludes ((r.contentType).getD "") "application/json" then
    .rawText r.bodyText
  else
    .jsonResult r.bodyJson

-- =============================================================================
-- The request executor (src: `LookerClientImpl.request`, full method)
-- =============================================================================

structure RequestOptions where
  method : String := "GET"
  headers : List (String × String) := []
  body : Option String := none
deriving DecidableEq, Repr

/- JavaScript object spread `{...base, ...overrides}` on header maps:
keys of `overrides` replace same-named keys of `base`. -/
def mergeHeaders (base overrides : List (String × String)) : List (String × String) :=
  base.filter (fun p => (overrides.find? (fun q => q.1 = p.1)).isNone) ++ overrides

def getHeader (hs : List (String × String)) (k : String) : Option String :=
  (hs.find? (fun p => p.1 = k)).map (·.2)

structure RequestResult where
  outcome : Except String ReqOutcome
  st : ClientState
  loginCalls : Nat
  sent : Option OutboundRequest
deriving Repr

/- `request(endpoint, options)`: obtain a token (propagating its error
without sending anything), send exactly one call to
`{baseUrl}/api/4.0{endpoint}` with the bearer/JSON headers merged with
the caller's overrides, clear the cached token on a 401/403 response,
and classify the response.  `resp` is the oracle for the one `fetch`. -/
def request (creds : TenantCredentials) (st : ClientState) (now : Int)
    (login : LoginOutcome) (endpoint : String) (opts : RequestOptions)
    (resp : HttpResponse) : RequestResult :=
  let tr := getAccessToken creds st now login
  match tr.out with
  | .error msg => { outcome := .error msg, st := tr.st, loginCalls := tr.loginCalls, sent := none }
  | .ok token =>
      let req : OutboundRequest :=
        { url := jsTemplate creds.baseUrl ++ "/api/4.0" ++ endpoint
        , method := opts.method
        , headers := mergeHeaders
            [("Authorization", "Bearer " ++ token), ("Content-Type", "application/json")]
            opts.headers
        , body := opts.body }
      let st2 := if resp.status = 401 ∨ resp.status = 403 then
          { accessToken := none, tokenExpiry := 0 }
        else tr.st
      { outcome := .ok (classifyResponse resp), st := st2
      , loginCalls := tr.loginCalls, sent := some req }

-- =============================================================================
-- Endpoint builders (src: list methods of `LookerClientImpl`)
-- =============================================================================

structure PaginationParams where
  limit : Option Int := none
  offset : Option Int := none
  fields : Option String := none
deriving DecidableEq, Repr

/- The `URLSearchParams` built by the paginated list methods:
`limit`, `offset` and `fields` are set only when truthy. -/
def paginationQuery (params : Option PaginationParams) : List (String × String) :=
  (match params.bind (·.limit) with
   | some n => if n ≠ 0 then [("limit", toString n)] else []
   | none => [])
  ++ (match params.bind (·.offset) with
      | some n => if n ≠ 0 then [("offset", toString n)] else []
      | none => [])
  ++ (match params.bind (·.fields) with
      | some f => if f ≠ "" then [("fields", f)] else []
      | none => [])

def listLooksEndpoint (params : Option PaginationParams) : String :=
  "/looks?" ++ qpToString (paginationQuery params)

/- Parameter object accepted by `listScheduledPlans`. -/
structure SchedPlanParams where
  user_id : Option String := none
  look_id : Option String := none
  dashboard_id : Option String := none
deriving DecidableEq, Repr

/- The `URLSearchParams` built by `listScheduledPlans`: only `user_id`
is ever set (when truthy); `look_id` and `dashboard_id` are unused. -/
def schedPlanQuery (params : Option SchedPlanParams) : List (String × String) :=
  match params.bind (·.user_id) with
  | some u => if u ≠ "" then [("user_id", u)] else []
  | none => []

def listScheduledPlansEndpoint (params : Option SchedPlanParams) : String :=
  "/scheduled_plans?" ++ qpToString (schedPlanQuery params)

-- =============================================================================
-- Paginated list post-processing (src: listLooks / listDashboards /
-- listFolders / listUsers result construction)
-- =============================================================================

structure PaginatedResponse (α : Type) where
  items : List α
  count : Nat
  hasMore : Bool
deriving DecidableEq, Repr

/- `listLooks`: wraps the decoded array, `count` is its length and
`hasMore` is `looks.length === (params?.limit || 100)`. -/
def listLooksPage (params : Option PaginationParams) (looks : List α) : PaginatedResponse α :=
  { items := looks
  , count := looks.length
  , hasMore := (looks.length : Int) = jsNumOr (params.bind (·.limit)) 100 }

/- `listDashboards`: same construction as `listLooks`. -/
def listDashboardsPage (params : Option PaginationParams) (dashboards : List α) : PaginatedResponse α :=
  { items := dashboards
  , count := dashboards.length
  , hasMore := (dashboards.length : Int) = jsNumOr (params.bind (·.limit)) 100 }

/- `listFolders`: same construction as `listLooks`. -/
def listFoldersPage (params : Option PaginationParams) (folders : List α) : PaginatedResponse α :=
  { items := folders
  , count := folders.length
  , hasMore := (folders.length : Int) = jsNumOr (params.bind (·.limit)) 100 }

/- `listUsers`: same construction as `listLooks`. -/
def listUsersPage (params : Option PaginationParams) (users : List α) : PaginatedResponse α :=
  { items := users
  , count := users.length
  , hasMore := (users.length : Int) = jsNumOr (params.bind (·.limit)) 100 }

-- =============================================================================
-- Spec-worded definitions (used only to compare against the code)
-- =============================================================================

/- Modelled from the spec words for the generic non-2xx message:
"message extracted from a JSON body's `message` or `error` field if
parseable, else the raw text, else a generic `API error: <status>`" —
read as the four-step fallback chain message field, then error field,
then raw body text, then the generic string. -/
def specApiMessage (r : HttpResponse) : String :=
  match truthyStr (r.bodyJson.bind (fun j => jsField j "message")) with
  | some v => v
  | none =>
      match truthyStr (r.bodyJson.bind (fun j => jsField j "error")) with
      | some w => w
      | none =>
          if r.bodyText ≠ "" then r.bodyText
          else "API error: " ++ toString r.status

-- =============================================================================
-- Theorems
-- =============================================================================

/-- C5: `validateCredentials` is a pure function of the credential value
(the embedding is a total function, mirroring the synchronous,
side-effect-free source) and fails with the MissingCredentials condition
exactly when `baseUrl` is absent/empty, or when neither `accessToken`
nor both `clientId` and `clientSecret` are present (present = a truthy
header value, as the source tests them); in particular
`validate({})` and `validate({baseUrl})` fail,
`validate({baseUrl, accessToken})` succeeds, and
`validate({baseUrl, clientId})` with the secret missing fails. -/
theorem c5_validate_credentials (c : TenantCredentials) :
    ((validateCredentials c).isOk = true ↔
      (truthyOpt c.baseUrl = true ∧
        (truthyOpt c.accessToken = true ∨
          (truthyOpt c.clientId = true ∧ truthyOpt c.clientSecret = true)))) ∧
    (validateCredentials {}).isOk = false ∧
    (validateCredentials { baseUrl := some "https://company.looker.com" }).isOk = false ∧
    (validateCredentials { baseUrl := some "https://company.looker.com"
                         , accessToken := some "tok" }).isOk = true ∧
    (validateCredentials { baseUrl := some "https://company.looker.com"
                         , clientId := some "id" }).isOk = false := by
  refine ⟨?_, by decide, by decide, by decide, by decide⟩
  cases hb : truthyOpt c.baseUrl <;>
    cases ha : truthyOpt c.accessToken <;>
      cases hi : truthyOpt c.clientId <;>
        cases hs : truthyOpt c.clientSecret <;>
          simp [validateCredentials, hb, ha, hi, hs, Except.isOk, Except.toBool]

/-- C9: the endpoint `listScheduledPlans` requests is a function of the
`user_id` field alone — the `look_id` and `dashboard_id` fields its
signature accepts never reach the query string — and the only query
parameter ever forwarded is `user_id` (set when truthy). -/
theorem c9_sched_plans_params (u l d l2 d2 : Option String) :
    listScheduledPlansEndpoint (some { user_id := u, look_id := l, dashboard_id := d }) =
      listScheduledPlansEndpoint (some { user_id := u, look_id := l2, dashboard_id := d2 }) ∧
    schedPlanQuery (some { user_id := u, look_id := l, dashboard_id := d }) =
      (match u with
       | some s => if s ≠ "" then [("user_id", s)] else []
       | none => []) := by
  constructor <;> rfl

/-- C10: every paginated response built by `listLooks` (and identically by
`listDashboards`, `listFolders`, `listUsers`) has `count` equal to the
length of the returned items array, and `hasMore` holds exactly when
that length equals the requested limit (a limit being requested when the
field is present and nonzero, as the source tests `params?.limit`), or
equals 100 when no limit was requested — the fallback is 100, not the
configured default page size 20, as the 20-item instance shows. -/
theorem c10_pagination (α : Type) (params : Option PaginationParams) (items : List α) :
    (listLooksPage params items).count = items.length ∧
    (∀ n : Int, params.bind (·.limit) = some n → n ≠ 0 →
      ((listLooksPage params items).hasMore = true ↔ (items.length : Int) = n)) ∧
    (params.bind (·.limit) = none →
      ((listLooksPage params items).hasMore = true ↔ (items.length : Int) = 100)) ∧
    listDashboardsPage params items = listLooksPage params items ∧
    listFoldersPage params items = listLooksPage params items ∧
    listUsersPage params items = listLooksPage params items ∧
    (listLooksPage (α := Unit) none (List.replicate 20 ())).hasMore = false ∧
    (listLooksPage (α := Unit) none (List.replicate 100 ())).hasMore = true := by
  refine ⟨rfl, ?_, ?_, rfl, rfl, rfl, by decide, by decide⟩
  · intro n hn hnz
    simp [listLooksPage, jsNumOr, hn, hnz]
  · intro hn
    simp [listLooksPage, jsNumOr, hn]

/-- C10 witness: a requested limit of 1 with one returned item makes
`hasMore` true, and an absent limit with one returned item makes it
false. -/
theorem c10_pagination_witness :
    (listLooksPage (α := Unit) (some { limit := some 1 }) [()]).hasMore = true ∧
    (listLooksPage (α := Unit) none [()]).hasMore = false := by
  constructor
  · exact ((c10_pagination Unit (some { limit := some 1 }) [()]).2.1 1 rfl (by decide)).mpr rfl
  · have h := (c10_pagination Unit none [()]).2.2.1 rfl
    cases hM : (listLooksPage (α := Unit) none [()]).hasMore
    · rfl
    · exact absurd (h.mp hM) (by decide)

/-- C1 (amended): every 429 response fails with `RateLimited` whose
retry-after-seconds value is `parseInt` of the `Retry-After` header when
that header is present and non-empty — which is `NaN` (here `none`) when
the header has no leading integer — and 60 when the header is absent or
empty; in particular `Retry-After: 30` yields 30 and an absent header
yields 60. -/
theorem c1_rate_limited (r : HttpResponse) (h : r.status = 429) :
    classifyResponse r =
      .rateLimited (if truthyOpt r.retryAfter then jsParseInt (jsTemplate r.retryAfter)
                    else some 60) ∧
    (r.retryAfter = some "30" → classifyResponse r = .rateLimited (some 30)) ∧
    (r.retryAfter = none → classifyResponse r = .rateLimited (some 60)) := by
  have main : classifyResponse r =
      .rateLimited (if truthyOpt r.retryAfter then jsParseInt (jsTemplate r.retryAfter)
                    else some 60) := by
    unfold classifyResponse
    rw [if_pos h]
  refine ⟨main, ?_, ?_⟩
  · intro h30
    rw [h30] at main
    rw [main]
    decide
  · intro hAbs
    rw [hAbs] at main
    rw [main]
    decide

/-- C1 witness: concrete 429 responses with header `30`, and with no
header, yield retry-after 30 and 60 respectively. -/
theorem c1_rate_limited_witness :
    classifyResponse { status := 429, retryAfter := some "30", contentType := none
                     , bodyText := "", bodyJson := none } = .rateLimited (some 30) ∧
    classifyResponse { status := 429, retryAfter := none, contentType := none
                     , bodyText := "", bodyJson := none } = .rateLimited (some 60) :=
  ⟨(c1_rate_limited _ rfl).2.1 rfl, (c1_rate_limited _ rfl).2.2 rfl⟩

/-- C1 counterexample: a 429 response whose `Retry-After` header is
present but unparseable (`"soon"`) yields retry-after `NaN`
(`parseInt("soon", 10)`), not the 60 the claim requires for an
unparseable header. -/
theorem c1_counterexample :
    classifyResponse { status := 429, retryAfter := some "soon", contentType := none
                     , bodyText := "", bodyJson := none } = .rateLimited none ∧
    ReqOutcome.rateLimited none ≠ .rateLimited (some 60) := by
  constructor
  · decide
  · decide

/-- C7: a 204 response returns the empty/undefined result (no decoding
of the body is attempted), and any 2xx response other than 204 whose
`Content-Type` does not contain `application/json` — for example
`text/csv` — returns the raw body text unparsed. -/
theorem c7_no_content_and_raw_text (r : HttpResponse) :
    (r.status = 204 → classifyResponse r = .noContent) ∧
    (200 ≤ r.status → r.status ≤ 299 → r.status ≠ 204 →
      strIncludes ((r.contentType).getD "") "application/json" = false →
      classifyResponse r = .rawText r.bodyText) := by
  constructor
  · intro h
    unfold classifyResponse
    rw [h]
    norm_num
  · intro h2l h2u h204 hct
    unfold classifyResponse
    rw [if_neg (by omega), if_neg (by omega), if_neg (by omega),
        if_neg (by push_neg; omega), if_neg h204, if_pos (by rw [hct]; rfl)]

/-- C7 witness: a concrete 204 response yields `noContent`, and a
concrete 200 `text/csv` response yields its raw body. -/
theorem c7_no_content_and_raw_text_witness :
    classifyResponse { status := 204, retryAfter := none, contentType := none
                     , bodyText := "", bodyJson := none } = .noContent ∧
    classifyResponse { status := 200, retryAfter := none, contentType := some "text/csv"
                     , bodyText := "a,b\n1,2", bodyJson := none } = .rawText "a,b\n1,2" := by
  constructor
  · exact (c7_no_content_and_raw_text _).1 rfl
  · exact (c7_no_content_and_raw_text _).2 (by decide) (by decide) (by decide) (by decide)

/-- C6 (amended): `request` classifies every response in the fixed
first-match-wins order 429, then 401/403, then 404, then any other
non-2xx, then 204, then non-JSON content type, then JSON; for any other
non-2xx status the failure is `ApiError{message, status}` where the
message is the JSON body's truthy `message` field, else its truthy
`error` field, when the body parses as JSON other than `null` (the
generic `"API error: <status>"` when it parses but has neither field);
the raw body text when the body does not parse as JSON or parses to
JSON `null` (accessing `.message` on `null` throws inside the try and
the catch assigns the raw text) and is non-empty; and the generic
string otherwise — the eighth conjunct states this catch-path message
rule explicitly. -/
theorem c6_classification_order (r : HttpResponse) :
    (r.status = 429 → classifyResponse r =
      .rateLimited (if truthyOpt r.retryAfter then jsParseInt (jsTemplate r.retryAfter)
                    else some 60)) ∧
    (r.status = 401 ∨ r.status = 403 → classifyResponse r =
      .authFailed "Authentication failed. Check your API credentials.") ∧
    (r.status = 404 → classifyResponse r = .notFound ("Not found: " ++ r.bodyText)) ∧
    (r.status ≠ 429 → r.status ≠ 401 → r.status ≠ 403 → r.status ≠ 404 →
      ¬(200 ≤ r.status ∧ r.status ≤ 299) →
      classifyResponse r = .apiError (extractApiMessage r) r.status) ∧
    (r.status = 204 → classifyResponse r = .noContent) ∧
    (200 ≤ r.status → r.status ≤ 299 → r.status ≠ 204 →
      strIncludes ((r.contentType).getD "") "application/json" = false →
      classifyResponse r = .rawText r.bodyText) ∧
    (200 ≤ r.status → r.status ≤ 299 → r.status ≠ 204 →
      strIncludes ((r.contentType).getD "") "application/json" = true →
      classifyResponse r = .jsonResult r.bodyJson) ∧
    (r.bodyJson = none ∨ r.bodyJson = some .nullVal →
      extractApiMessage r =
        (if r.bodyText = "" then "API error: " ++ toString r.status else r.bodyText)) := by
  refine ⟨?_, ?_, ?_, ?_, ?_, ?_, ?_, ?_⟩
  · intro h
    unfold classifyResponse
    rw [if_pos h]
  · intro h
    unfold classifyResponse
    rw [if_neg (by omega), if_pos h]
  · intro h
    unfold classifyResponse
    rw [if_neg (by omega), if_neg (by omega), if_pos h]
  · intro h429 h401 h403 h404 hok
    unfold classifyResponse
    rw [if_neg h429, if_neg (by tauto), if_neg h404, if_pos hok]
  · intro h
    unfold classifyResponse
    rw [h]
    norm_num
  · intro h2l h2u h204 hct
    unfold classifyResponse
    rw [if_neg (by omega), if_neg (by omega), if_neg (by omega),
        if_neg (by push_neg; omega), if_neg h204, if_pos (by rw [hct]; rfl)]
  · intro h2l h2u h204 hct
    unfold classifyResponse
    rw [if_neg (by omega), if_neg (by omega), if_neg (by omega),
        if_neg (by push_neg; omega), if_neg h204, if_neg (by rw [hct]; simp)]
  · intro h
    rcases h with h | h <;> simp only [extractApiMessage, h]

/-- C6 witness: one concrete response per classification branch, each
classified as the corresponding branch dictates, plus the catch-path
message rule at a body parsing to JSON `null`. -/
theorem c6_classification_order_witness :
    classifyResponse { status := 429, retryAfter := none, contentType := none
                     , bodyText := "", bodyJson := none } = .rateLimited (some 60) ∧
    classifyResponse { status := 403, retryAfter := none, contentType := none
                     , bodyText := "", bodyJson := none } =
      .authFailed "Authentication failed. Check your API credentials." ∧
    classifyResponse { status := 404, retryAfter := none, contentType := none
                     , bodyText := "gone", bodyJson := none } = .notFound "Not found: gone" ∧
    classifyResponse { status := 500, retryAfter := none, contentType := none
                     , bodyText := "", bodyJson := some (.obj [("message", "boom")]) } =
      .apiError "boom" 500 ∧
    classifyResponse { status := 204, retryAfter := none, contentType := none
                     , bodyText := "", bodyJson := none } = .noContent ∧
    classifyResponse { status := 200, retryAfter := none, contentType := some "text/csv"
                     , bodyText := "x", bodyJson := none } = .rawText "x" ∧
    classifyResponse { status := 200, retryAfter := none
                     , contentType := some "application/json", bodyText := "3"
                     , bodyJson := some (.num 3) } = .jsonResult (some (.num 3)) ∧
    classifyResponse { status := 500, retryAfter := none, contentType := none
                     , bodyText := "null", bodyJson := some .nullVal } =
      .apiError "null" 500 ∧
    extractApiMessage { status := 500, retryAfter := none, contentType := none
                      , bodyText := "null", bodyJson := some .nullVal } = "null" := by
  refine ⟨?_, ?_, ?_, ?_, ?_, ?_, ?_, ?_, ?_⟩
  · exact (c6_classification_order _).1 rfl
  · exact (c6_classification_order _).2.1 (Or.inr rfl)
  · exact (c6_classification_order _).2.2.1 rfl
  · exact (c6_classification_order _).2.2.2.1 (by decide) (by decide) (by decide) (by decide)
      (by decide)
  · exact (c6_classification_order _).2.2.2.2.1 rfl
  · exact (c6_classification_order _).2.2.2.2.2.1 (by decide) (by decide) (by decide) (by decide)
  · exact (c6_classification_order _).2.2.2.2.2.2.1 (by decide) (by decide) (by decide)
      (by decide)
  · have h := (c6_classification_order
      { status := 500, retryAfter := none, contentType := none
      , bodyText := "null", bodyJson := some .nullVal }).2.2.2.1
      (by decide) (by decide) (by decide) (by decide) (by decide)
    rw [h]
    decide
  · have h := (c6_classification_order
      { status := 500, retryAfter := none, contentType := none
      , bodyText := "null", bodyJson := some .nullVal }).2.2.2.2.2.2.2 (Or.inr rfl)
    rw [h]
    decide

/-- C6 counterexample: a 500 response whose body is valid JSON with
neither a `message` nor an `error` field gets the generic
`"API error: 500"` message, not the raw body text the claim's fallback
chain (message, else error, else raw text, else generic) prescribes. -/
theorem c6_counterexample :
    classifyResponse { status := 500, retryAfter := none, contentType := none
                     , bodyText := "\x7b\"a\":1\x7d", bodyJson := some (.obj [("a", "1")]) } =
      .apiError "API error: 500" 500 ∧
    specApiMessage { status := 500, retryAfter := none, contentType := none
                   , bodyText := "\x7b\"a\":1\x7d", bodyJson := some (.obj [("a", "1")]) } =
      "\x7b\"a\":1\x7d" ∧
    classifyResponse { status := 500, retryAfter := none, contentType := none
                     , bodyText := "\x7b\"a\":1\x7d", bodyJson := some (.obj [("a", "1")]) } ≠
      .apiError (specApiMessage { status := 500, retryAfter := none, contentType := none
                                , bodyText := "\x7b\"a\":1\x7d"
                                , bodyJson := some (.obj [("a", "1")]) }) 500 := by
  refine ⟨by decide, by decide, by decide⟩

/-- C3: for credentials with a (truthy) pre-authenticated `accessToken`,
no call of `getAccessToken` ever issues a login request — whatever the
client state (in particular the cleared state a 401/403 leaves behind),
clock value, and login oracle, and whatever `clientId`/`clientSecret`
hold; the constructor installs the supplied token with an assumed
one-hour validity window, and any cache-missing call reinstalls it with
a fresh one-hour window. -/
theorem c3_pre_authenticated_token (creds : TenantCredentials)
    (h : truthyOpt creds.accessToken = true) :
    (∀ (st : ClientState) (now : Int) (login : LoginOutcome),
      (getAccessToken creds st now login).loginCalls = 0 ∧
      (getAccessToken creds st now login).loginReq = none) ∧
    (∀ now0 : Int, initState creds now0 =
      { accessToken := creds.accessToken, tokenExpiry := now0 + 3600000 }) ∧
    (∀ (st : ClientState) (now : Int) (login : LoginOutcome),
      ¬(truthyOpt st.accessToken = true ∧ now < st.tokenExpiry - 60000) →
      (getAccessToken creds st now login).st =
        { accessToken := creds.accessToken, tokenExpiry := now + 3600000 }) := by
  refine ⟨?_, ?_, ?_⟩
  · intro st now login
    unfold getAccessToken
    by_cases hc : truthyOpt st.accessToken = true ∧ now < st.tokenExpiry - 60000
    · rw [if_pos hc]
      exact ⟨rfl, rfl⟩
    · rw [if_neg hc, if_pos h]
      exact ⟨rfl, rfl⟩
  · intro now0
    unfold initState
    rw [if_pos h]
  · intro st now login hc
    unfold getAccessToken
    rw [if_neg hc, if_pos h]

/-- C3 witness: with an access token supplied and the cleared state a
401 leaves behind, `getAccessToken` issues no login call and reinstalls
the supplied token for one hour. -/
theorem c3_pre_authenticated_token_witness :
    (getAccessToken { baseUrl := some "https://x.looker.com", clientId := some "a"
                    , clientSecret := some "b", accessToken := some "TOK" }
      { accessToken := none, tokenExpiry := 0 } 5000 (.failure "down")).loginCalls = 0 ∧
    (getAccessToken { baseUrl := some "https://x.looker.com", clientId := some "a"
                    , clientSecret := some "b", accessToken := some "TOK" }
      { accessToken := none, tokenExpiry := 0 } 5000 (.failure "down")).st =
      { accessToken := some "TOK", tokenExpiry := 5000 + 3600000 } := by
  constructor
  · exact ((c3_pre_authenticated_token
      { baseUrl := some "https://x.looker.com", clientId := some "a"
      , clientSecret := some "b", accessToken := some "TOK" } rfl).1
      { accessToken := none, tokenExpiry := 0 } 5000 (.failure "down")).1
  · exact (c3_pre_authenticated_token
      { baseUrl := some "https://x.looker.com", clientId := some "a"
      , clientSecret := some "b", accessToken := some "TOK" } rfl).2.2
      { accessToken := none, tokenExpiry := 0 } 5000 (.failure "down") (by decide)

/-- C4: with only client credentials (no truthy access token, truthy
`clientId` and `clientSecret`), the first `getAccessToken` from the
freshly constructed state issues exactly one login request and caches
the returned non-empty token with recorded expiry
`now + (expires_in || 3600) * 1000` (so `now + 3600 * 1000` when the
server omits `expires_in`); a second call while more than 60 seconds
remain before that recorded expiry issues zero further login requests
and returns the cached token with the state unchanged. -/
theorem c4_login_then_cache_hit (creds : TenantCredentials) (now0 now1 now2 : Int)
    (tok : String) (exp : Option Int) (login2 : LoginOutcome)
    (hA : truthyOpt creds.accessToken = false)
    (hI : truthyOpt creds.clientId = true)
    (hS : truthyOpt creds.clientSecret = true)
    (hTok : tok ≠ "")
    (hFresh : now2 < (now1 + jsNumOr exp 3600 * 1000) - 60000) :
    (getAccessToken creds (initState creds now0) now1 (.success tok exp)).loginCalls = 1 ∧
    (getAccessToken creds (initState creds now0) now1 (.success tok exp)).out = .ok tok ∧
    (getAccessToken creds (initState creds now0) now1 (.success tok exp)).st =
      { accessToken := some tok, tokenExpiry := now1 + jsNumOr exp 3600 * 1000 } ∧
    (exp = none →
      (getAccessToken creds (initState creds now0) now1 (.success tok exp)).st.tokenExpiry =
        now1 + 3600 * 1000) ∧
    (getAccessToken creds
        (getAccessToken creds (initState creds now0) now1 (.success tok exp)).st
        now2 login2).loginCalls = 0 ∧
    (getAccessToken creds
        (getAccessToken creds (initState creds now0) now1 (.success tok exp)).st
        now2 login2).out = .ok tok ∧
    (getAccessToken creds
        (getAccessToken creds (initState creds now0) now1 (.success tok exp)).st
        now2 login2).st =
      (getAccessToken creds (initState creds now0) now1 (.success tok exp)).st := by
  have hst0 : initState creds now0 = { accessToken := none, tokenExpiry := 0 } := by
    unfold initState
    rw [if_neg (by rw [hA]; exact Bool.false_ne_true)]
  have h1 : getAccessToken creds (initState creds now0) now1 (.success tok exp) =
      { out := .ok tok
      , st := { accessToken := some tok, tokenExpiry := now1 + jsNumOr exp 3600 * 1000 }
      , loginCalls := 1, loginReq := some (loginRequest creds) } := by
    rw [hst0]
    unfold getAccessToken
    rw [if_neg (by simp [truthyOpt]), if_neg (by rw [hA]; exact Bool.false_ne_true),
        if_neg (by rw [hI, hS]; decide)]
  have h2 : getAccessToken creds
      { accessToken := some tok, tokenExpiry := now1 + jsNumOr exp 3600 * 1000 } now2 login2 =
      { out := .ok tok
      , st := { accessToken := some tok, tokenExpiry := now1 + jsNumOr exp 3600 * 1000 }
      , loginCalls := 0, loginReq := none } := by
    unfold getAccessToken
    rw [if_pos ⟨by simpa [truthyOpt] using hTok, hFresh⟩]
    rfl
  refine ⟨by rw [h1], by rw [h1], by rw [h1], ?_, ?_, ?_, ?_⟩
  · intro hExp
    rw [h1, hExp]
    rfl
  · rw [h1, h2]
  · rw [h1, h2]
  · rw [h1, h2]

/-- C4 witness: client-credential tenant, stub login returning token
`T1` with `expires_in` 3600; the first call issues one login, the
second call (1 second later) issues none and returns `T1`. -/
theorem c4_login_then_cache_hit_witness :
    (getAccessToken { baseUrl := some "https://x.looker.com", clientId := some "a"
                    , clientSecret := some "b" }
      (initState { baseUrl := some "https://x.looker.com", clientId := some "a"
                 , clientSecret := some "b" } 0) 0 (.success "T1" (some 3600))).loginCalls = 1 ∧
    (getAccessToken { baseUrl := some "https://x.looker.com", clientId := some "a"
                    , clientSecret := some "b" }
      (getAccessToken { baseUrl := some "https://x.looker.com", clientId := some "a"
                      , clientSecret := some "b" }
        (initState { baseUrl := some "https://x.looker.com", clientId := some "a"
                   , clientSecret := some "b" } 0) 0 (.success "T1" (some 3600))).st
      1000 (.failure "unreachable")).loginCalls = 0 := by
  have h := c4_login_then_cache_hit
    { baseUrl := some "https://x.looker.com", clientId := some "a", clientSecret := some "b" }
    0 0 1000 "T1" (some 3600) (.failure "unreachable") rfl rfl rfl (by decide) (by decide)
  exact ⟨h.1, h.2.2.2.2.1⟩

/-- C2 (amended): for every client state, whenever a call's response has
HTTP status 401 or 403 (the call having been sent, i.e. token
acquisition succeeded), `request` clears the cached token (token slot
null, expiry 0) and fails with `AuthenticationFailed`, having sent the
call exactly once (no retry); after such a clear, the next
`getAccessToken` issues a fresh login request for tenants authenticating
with truthy `clientId`/`clientSecret` and no truthy pre-authenticated
`accessToken` — not for every credential value. -/
theorem c2_auth_failure_clears_token (creds : TenantCredentials) (st : ClientState)
    (now : Int) (login : LoginOutcome) (endpoint : String) (opts : RequestOptions)
    (resp : HttpResponse) (tok : String)
    (hTok : (getAccessToken creds st now login).out = .ok tok)
    (hAuth : resp.status = 401 ∨ resp.status = 403) :
    (request creds st now login endpoint opts resp).st =
      { accessToken := none, tokenExpiry := 0 } ∧
    (request creds st now login endpoint opts resp).outcome =
      .ok (.authFailed "Authentication failed. Check your API credentials.") ∧
    (request creds st now login endpoint opts resp).sent.isSome = true ∧
    (∀ (creds2 : TenantCredentials) (now2 : Int) (login2 : LoginOutcome),
      truthyOpt creds2.accessToken = false →
      truthyOpt creds2.clientId = true → truthyOpt creds2.clientSecret = true →
      (getAccessToken creds2 { accessToken := none, tokenExpiry := 0 } now2 login2).loginCalls
        = 1 ∧
      (getAccessToken creds2 { accessToken := none, tokenExpiry := 0 } now2 login2).loginReq
        = some (loginRequest creds2)) := by
  have hClass : classifyResponse resp =
      .authFailed "Authentication failed. Check your API credentials." := by
    unfold classifyResponse
    rw [if_neg (by omega), if_pos hAuth]
  have hReq : request creds st now login endpoint opts resp =
      { outcome := .ok (classifyResponse resp)
      , st := { accessToken := none, tokenExpiry := 0 }
      , loginCalls := (getAccessToken creds st now login).loginCalls
      , sent := some
          { url := jsTemplate creds.baseUrl ++ "/api/4.0" ++ endpoint
          , method := opts.method
          , headers := mergeHeaders
              [("Authorization", "Bearer " ++ tok), ("Content-Type", "application/json")]
              opts.headers
          , body := opts.body } } := by
    simp only [request]
    rw [hTok]
    dsimp only
    rw [if_pos hAuth]
  refine ⟨by rw [hReq], by rw [hReq, hClass], by rw [hReq]; rfl, ?_⟩
  intro creds2 now2 login2 hA2 hI2 hS2
  unfold getAccessToken
  rw [if_neg (by simp [truthyOpt]), if_neg (by rw [hA2]; exact Bool.false_ne_true),
      if_neg (by rw [hI2, hS2]; decide)]
  cases login2 <;> exact ⟨rfl, rfl⟩

/-- C2 witness: cached token `T`, a 403 response: state is cleared, the
error is `AuthenticationFailed`, the call was sent once, and the next
`getAccessToken` of a client-credential tenant from the cleared state
issues one login request. -/
theorem c2_auth_failure_clears_token_witness :
    (request { baseUrl := some "https://x.looker.com", clientId := some "a"
             , clientSecret := some "b" }
      { accessToken := some "T", tokenExpiry := 200000 } 0 (.failure "z") "/user" {}
      { status := 403, retryAfter := none, contentType := none
      , bodyText := "", bodyJson := none }).st =
      { accessToken := none, tokenExpiry := 0 } ∧
    (getAccessToken { baseUrl := some "https://x.looker.com", clientId := some "a"
                    , clientSecret := some "b" }
      { accessToken := none, tokenExpiry := 0 } 5 (.success "T2" none)).loginCalls = 1 := by
  have h := c2_auth_failure_clears_token
    { baseUrl := some "https://x.looker.com", clientId := some "a", clientSecret := some "b" }
    { accessToken := some "T", tokenExpiry := 200000 } 0 (.failure "z") "/user" {}
    { status := 403, retryAfter := none, contentType := none
    , bodyText := "", bodyJson := none } "T" rfl (Or.inr rfl)
  exact ⟨h.1, (h.2.2.2
    { baseUrl := some "https://x.looker.com", clientId := some "a", clientSecret := some "b" }
    5 (.success "T2" none) rfl rfl rfl).1⟩

/-- C2 counterexample: for a tenant whose credentials carry a
pre-authenticated `accessToken`, a 401 does clear the cached token, but
the next `getAccessToken` issues no login request (it reinstalls the
supplied token) — refuting the claim's "issues a fresh login request,
for any credentials". -/
theorem c2_counterexample :
    (request { baseUrl := some "https://x.looker.com", accessToken := some "T" }
      (initState { baseUrl := some "https://x.looker.com", accessToken := some "T" } 0)
      0 (.failure "z") "/user" {}
      { status := 401, retryAfter := none, contentType := none
      , bodyText := "", bodyJson := none }).st =
      { accessToken := none, tokenExpiry := 0 } ∧
    (getAccessToken { baseUrl := some "https://x.looker.com", accessToken := some "T" }
      { accessToken := none, tokenExpiry := 0 } 1000 (.failure "z")).loginCalls = 0 ∧
    (getAccessToken { baseUrl := some "https://x.looker.com", accessToken := some "T" }
      { accessToken := none, tokenExpiry := 0 } 1000 (.failure "z")).out = .ok "T" := by
  refine ⟨by decide, by decide, rfl⟩

/-- C8: every sent call goes to the absolute URL
`baseUrl ++ "/api/4.0" ++ endpoint` with method, body and headers built
by merging the default `Authorization: Bearer <token>` /
`Content-Type: application/json` headers with the caller's overrides
(overrides win; absent an override, the Authorization header carries the
bearer token); any login request issued is a POST of the form-encoded
`client_id` and `client_secret` to `{baseUrl}/api/4.0/login`; and
end-to-end, after a stub login returning `access_token "T1"`, a list
call for one item is sent to `.../api/4.0/looks?limit=1` carrying
`Authorization: Bearer T1`. -/
theorem c8_request_url_headers_login (creds : TenantCredentials) (st : ClientState)
    (now : Int) (login : LoginOutcome) (endpoint : String) (opts : RequestOptions)
    (resp : HttpResponse) (tok : String)
    (hTok : (getAccessToken creds st now login).out = .ok tok) :
    (request creds st now login endpoint opts resp).sent = some
      { url := jsTemplate creds.baseUrl ++ "/api/4.0" ++ endpoint
      , method := opts.method
      , headers := mergeHeaders
          [("Authorization", "Bearer " ++ tok), ("Content-Type", "application/json")]
          opts.headers
      , body := opts.body } ∧
    (opts.headers.find? (fun q => q.1 = "Authorization") = none →
      getHeader (mergeHeaders
          [("Authorization", "Bearer " ++ tok), ("Content-Type", "application/json")]
          opts.headers) "Authorization" = some ("Bearer " ++ tok)) ∧
    (∀ req, (getAccessToken creds st now login).loginReq = some req →
      req = { url := jsTemplate creds.baseUrl ++ "/api/4.0/login"
            , method := "POST"
            , headers := [("Content-Type", "application/x-www-form-urlencoded")]
            , body := some ("client_id=" ++ encodeURIComponent (jsTemplate creds.clientId)
                  ++ "&client_secret=" ++ encodeURIComponent (jsTemplate creds.clientSecret)) }) ∧
    ((request { baseUrl := some "https://x.looker.com", clientId := some "a"
              , clientSecret := some "b" }
        (initState { baseUrl := some "https://x.looker.com", clientId := some "a"
                   , clientSecret := some "b" } 0)
        0 (.success "T1" (some 10)) (listLooksEndpoint (some { limit := some 1 })) {}
        { status := 200, retryAfter := none, contentType := some "application/json"
        , bodyText := "[]", bodyJson := some (.atom "[]") }).sent.map
      (fun q => (q.url, getHeader q.headers "Authorization"))) =
      some ("https://x.looker.com/api/4.0/looks?limit=1", some "Bearer T1") := by
  refine ⟨?_, ?_, ?_, by decide⟩
  · simp only [request]
    rw [hTok]
  · intro hNone
    simp [mergeHeaders, getHeader, hNone]
  · intro req hreq
    have hd : (getAccessToken creds st now login).loginReq = none ∨
        (getAccessToken creds st now login).loginReq = some (loginRequest creds) := by
      unfold getAccessToken
      by_cases h1 : truthyOpt st.accessToken = true ∧ now < st.tokenExpiry - 60000
      · rw [if_pos h1]
        exact Or.inl rfl
      · rw [if_neg h1]
        by_cases h2 : truthyOpt creds.accessToken = true
        · rw [if_pos h2]
          exact Or.inl rfl
        · rw [if_neg h2]
          by_cases h3 : (!truthyOpt creds.clientId || !truthyOpt creds.clientSecret) = true
          · rw [if_pos h3]
            exact Or.inl rfl
          · rw [if_neg h3]
            cases login <;> exact Or.inr rfl
    rcases hd with hn | hs
    · rw [hreq] at hn
      exact absurd hn (by simp)
    · rw [hreq] at hs
      exact Option.some.inj hs

/-- C8 witness: the stub-login end-to-end scenario concretely — the list
call is sent to `https://x.looker.com/api/4.0/looks?limit=1` with
default headers carrying `Bearer T1`, and the login request issued on
the way is the form-encoded POST to
`https://x.looker.com/api/4.0/login`. -/
theorem c8_request_url_headers_login_witness :
    (request { baseUrl := some "https://x.looker.com", clientId := some "a"
             , clientSecret := some "b" }
      (initState { baseUrl := some "https://x.looker.com", clientId := some "a"
                 , clientSecret := some "b" } 0)
      0 (.success "T1" (some 10)) (listLooksEndpoint (some { limit := some 1 })) {}
      { status := 200, retryAfter := none, contentType := some "application/json"
      , bodyText := "[]", bodyJson := some (.atom "[]") }).sent = some
      { url := "https://x.looker.com/api/4.0/looks?limit=1"
      , method := "GET"
      , headers := [("Authorization", "Bearer T1"), ("Content-Type", "application/json")]
      , body := none } ∧
    getHeader (mergeHeaders
        [("Authorization", "Bearer T1"), ("Content-Type", "application/json")] [])
      "Authorization" = some "Bearer T1" ∧
    (getAccessToken { baseUrl := some "https://x.looker.com", clientId := some "a"
                    , clientSecret := some "b" }
      (initState { baseUrl := some "https://x.looker.com", clientId := some "a"
                 , clientSecret := some "b" } 0)
      0 (.success "T1" (some 10))).loginReq = some
      { url := "https://x.looker.com/api/4.0/login"
      , method := "POST"
      , headers := [("Content-Type", "application/x-www-form-urlencoded")]
      , body := some "client_id=a&client_secret=b" } := by
  have h := c8_request_url_headers_login
    { baseUrl := some "https://x.looker.com", clientId := some "a", clientSecret := some "b" }
    (initState { baseUrl := some "https://x.looker.com", clientId := some "a"
               , clientSecret := some "b" } 0)
    0 (.success "T1" (some 10)) (listLooksEndpoint (some { limit := some 1 })) {}
    { status := 200, retryAfter := none, contentType := some "application/json"
    , bodyText := "[]", bodyJson := some (.atom "[]") } "T1" rfl
  refine ⟨?_, h.2.1 rfl, ?_⟩
  · rw [h.1]
    rfl
  · have hl : (getAccessToken { baseUrl := some "https://x.looker.com", clientId := some "a"
                              , clientSecret := some "b" }
        (initState { baseUrl := some "https://x.looker.com", clientId := some "a"
                   , clientSecret := some "b" } 0)
        0 (.success "T1" (some 10))).loginReq = some
        (loginRequest { baseUrl := some "https://x.looker.com", clientId := some "a"
                      , clientSecret := some "b" }) := rfl
    rw [hl, h.2.2.1 _ hl]
    rfl
